import Mathlib

/-!
Verification of the authentication token lifecycle of the email-dashboard
repository: the server-side Token Issuer (backend/src/routes/auth.ts,
backend/src/services/tokenStore.ts authMiddleware) and the client-side
Refresh Coordinator (the axios response interceptor in the frontend api
client module).

The embedding is shallow: the mutable module state of the client
(accessToken, isRefreshing, failedQueue, localStorage refreshToken) becomes
an explicit record, and each synchronous run-to-completion segment of the
interceptor on the event loop becomes a pure state-transition function.
A ghost `trace` field records the externally visible events (refresh POSTs,
the in-memory token update, queued-caller resumptions) in program order.
-/

namespace AuthCore

/-- Ghost events, appended in the order the corresponding code runs.
`refreshPost` = an HTTP POST to the refresh endpoint is sent;
`setToken` = `setAccessToken(newAccessToken)` runs;
`resume j tok` = queued caller `j`'s promise is resolved with `tok`
(its `.then` immediately retries the original request carrying `tok`). -/
inductive Event
  | refreshPost
  | setToken (tok : String)
  | resume (call : Nat) (tok : String)
deriving DecidableEq, Repr

/-- The lifecycle phase of one client call inside the interceptor. -/
inductive Phase
  /-- The original request is in flight, or its 401 handler has not run. -/
  | running
  /-- Pushed onto `failedQueue` as a follower, awaiting `processQueue`. -/
  | queued
  /-- The trigger call, awaiting the refresh POST's response. -/
  | awaitingRefresh
  /-- Resumed; the original request was re-sent carrying `tok`. -/
  | retried (tok : String)
  /-- The 401 fell through to `Promise.reject(error)` (line 212): the
  authorization failure is surfaced to the caller. -/
  | surfaced
  /-- Rejected with the refresh exchange's own failure `err`
  (`processQueue(refreshError)` or the trigger's `Promise.reject(refreshError)`). -/
  | rejectedRefresh (err : Nat)
  /-- Rejected in the missing-refresh-token branch (lines 175-180). -/
  | rejectedNoToken
deriving DecidableEq, Repr

/-- Per-call bookkeeping: the `originalRequest._retry` flag and the phase. -/
structure Call where
  retryFlag : Bool
  phase : Phase
deriving DecidableEq, Repr

/-- A call whose 401 handler has not yet run, with `_retry` unset. -/
def Call.fresh : Call := { retryFlag := false, phase := .running }

/-- The client module's mutable state (api client module, lines 81-128)
plus a ghost event trace. `calls` maps a call id to its bookkeeping. -/
structure ClientState where
  /-- Variable `let accessToken: string | null` (line 82), in-memory only. -/
  accessToken : Option String
  /-- Storage `localStorage.getItem("refreshToken")`: durable client storage. -/
  refreshTokenLS : Option String
  /-- Flag `let isRefreshing = false` (line 85). -/
  isRefreshing : Bool
  /-- Queue `let failedQueue` (line 86): queued follower call ids, push order. -/
  failedQueue : List Nat
  calls : Nat → Call
  trace : List Event

/-- Pointwise update of the call table. -/
def setCall (cs : Nat → Call) (i : Nat) (c : Call) : Nat → Call :=
  fun j => if j = i then c else cs j

/-- The client module right after initialisation (no queued calls, not
refreshing, every call fresh), with given stored tokens. -/
def initState (acc rt : Option String) : ClientState :=
  { accessToken := acc
    refreshTokenLS := rt
    isRefreshing := false
    failedQueue := []
    calls := fun _ => Call.fresh
    trace := [] }

/-- Line 153 of the interceptor: `error.response?.status === 401 &&
!originalRequest._retry` — the only guard deciding whether a failed
response enters the refresh-coordination path at all. -/
def shouldHandle401 (status : Nat) (retryFlag : Bool) : Bool :=
  status == 401 && !retryFlag

/-- The synchronous segment of the response interceptor run when call `i`
receives a 401 response (lines 147-180 and the fall-through at 212):
if `_retry` is already set the error is surfaced; else if a refresh is in
flight the call is pushed onto `failedQueue`; else the call becomes the
trigger: `_retry := true`, `isRefreshing := true`, then either the
missing-refresh-token branch (clearTokens, reject — note the code never
resets `isRefreshing` here, since the `finally` belongs to the not-yet
entered try around the POST) or the refresh POST is sent and the call
suspends awaiting it. -/
def handle401 (s : ClientState) (i : Nat) : ClientState :=
  let c := s.calls i
  if c.retryFlag then
    { s with calls := setCall s.calls i { c with phase := .surfaced } }
  else if s.isRefreshing then
    { s with failedQueue := s.failedQueue ++ [i]
             calls := setCall s.calls i { c with phase := .queued } }
  else
    match s.refreshTokenLS with
    | none =>
      { s with isRefreshing := true
               accessToken := none
               refreshTokenLS := none
               calls := setCall s.calls i
                 { c with retryFlag := true, phase := .rejectedNoToken } }
    | some _ =>
      { s with isRefreshing := true
               calls := setCall s.calls i
                 { c with retryFlag := true, phase := .awaitingRefresh }
               trace := s.trace ++ [Event.refreshPost] }

/-- Source `processQueue(null, token)` (lines 91-100) on the success path: every
entry's `resolve(token)` fires, and each follower's `.then` re-sends its
original request carrying `token`; the `_retry` flag is NOT touched. -/
def resolveQueue (cs : Nat → Call) (q : List Nat) (tok : String) : Nat → Call :=
  q.foldl (fun acc j => setCall acc j { acc j with phase := .retried tok }) cs

/-- Source `processQueue(error)` on the failure path: every entry is rejected
with the one refresh failure `err`. -/
def rejectQueue (cs : Nat → Call) (q : List Nat) (err : Nat) : Nat → Call :=
  q.foldl (fun acc j => setCall acc j { acc j with phase := .rejectedRefresh err }) cs

/-- The refresh POST of trigger `i` resolves with `newTok`
(lines 188-200, then `finally isRefreshing = false`): in code order,
`setAccessToken(newAccessToken)`, then `processQueue(null, newAccessToken)`
(each resumed follower retries with `newTok`), then the trigger retries its
own request with `newTok`. -/
def refreshSuccess (s : ClientState) (i : Nat) (newTok : String) : ClientState :=
  { s with accessToken := some newTok
           isRefreshing := false
           failedQueue := []
           calls := setCall (resolveQueue s.calls s.failedQueue newTok) i
             { s.calls i with phase := .retried newTok }
           trace := s.trace ++
             (Event.setToken newTok :: s.failedQueue.map (fun j => Event.resume j newTok)) }

/-- The refresh POST of trigger `i` fails with `err` (lines 201-209, then
`finally isRefreshing = false`): `processQueue(refreshError)`,
`clearTokens()`, redirect to the login page, and the trigger rejects with
the same `refreshError`. -/
def refreshFailure (s : ClientState) (i : Nat) (err : Nat) : ClientState :=
  { s with accessToken := none
           refreshTokenLS := none
           isRefreshing := false
           failedQueue := []
           calls := setCall (rejectQueue s.calls s.failedQueue err) i
             { s.calls i with phase := .rejectedRefresh err } }

/-- Deliver a 401 to each call of `L` in order, before any refresh
completes: the interleaving in which all N in-flight calls fail within the
same scheduling window. -/
def runFailures (s : ClientState) (L : List Nat) : ClientState :=
  L.foldl handle401 s

/-- Number of refresh POSTs recorded in a trace. -/
def countRefreshPosts (tr : List Event) : Nat :=
  tr.countP (fun e => e == Event.refreshPost)

/-- Number of `setToken` events recorded in a trace. -/
def countSetTokens (tr : List Event) : Nat :=
  tr.countP (fun e => match e with | Event.setToken _ => true | _ => false)

/-! ## Server side: the Token Issuer (backend/src/routes/auth.ts) -/

/-- A signed JWT, abstracting the encoded token string injectively:
`jwt.sign({ userId, email }, secret, { expiresIn })` is deterministic, so a
token is determined by its payload claims (`userId`, `email`), its `iat`
(seconds), its `exp`, and which signing secret produced it; two tokens are
equal exactly when all of these agree. -/
structure Jwt where
  userId : String
  email : String
  iat : Nat
  exp : Nat
  secret : Nat
deriving DecidableEq, Repr

/-- The distinct env secrets `JWT_SECRET` and `JWT_REFRESH_SECRET`. -/
def JWT_SECRET : Nat := 0

def JWT_REFRESH_SECRET : Nat := 1

/-- Constant `ACCESS_EXPIRY = "15m"` in seconds. -/
def ACCESS_EXPIRY : Nat := 15 * 60

/-- Constant `REFRESH_EXPIRY = "7d"` in seconds. -/
def REFRESH_EXPIRY : Nat := 7 * 24 * 60 * 60

/-- Model of `jwt.sign({ userId, email }, secret, { expiresIn })` at clock second
`now`: stamps `iat := now`, `exp := now + expiresIn`. -/
def jwtSign (userId email : String) (secret expiresIn now : Nat) : Jwt :=
  { userId := userId, email := email, iat := now, exp := now + expiresIn
    secret := secret }

/-- Model of `jwt.verify(token, secret)` at clock second `now`: succeeds iff the
signature matches `secret` and the token is not yet expired (jsonwebtoken
rejects with TokenExpiredError when `now >= exp`). -/
def jwtVerifyOk (t : Jwt) (secret now : Nat) : Bool :=
  t.secret == secret && now < t.exp

/-- Source `generateTokens(userId, email)` (auth.ts lines 26-41) at clock `now`. -/
def generateTokens (userId email : String) (now : Nat) : Jwt × Jwt :=
  (jwtSign userId email JWT_SECRET ACCESS_EXPIRY now,
   jwtSign userId email JWT_REFRESH_SECRET REFRESH_EXPIRY now)

/-- The server-side revocation store
`const refreshTokenStore = new Map<string, string>()` (auth.ts line 23),
mapping refresh-token value to user id. Association list, newest first. -/
def RTStore := List (Jwt × String)

/-- Lookup `refreshTokenStore.get(tok)`. -/
def storeGet (st : RTStore) (tok : Jwt) : Option String :=
  match st with
  | [] => none
  | (k, v) :: rest => if k = tok then some v else storeGet rest tok

/-- Deletion `refreshTokenStore.delete(tok)`: remove the binding for `tok`. -/
def storeDelete (st : RTStore) (tok : Jwt) : RTStore :=
  match st with
  | [] => []
  | (k, v) :: rest =>
    if k = tok then storeDelete rest tok else (k, v) :: storeDelete rest tok

/-- Insertion `refreshTokenStore.set(tok, userId)`: insert or overwrite. -/
def storeSet (st : RTStore) (tok : Jwt) (userId : String) : RTStore :=
  (tok, userId) :: storeDelete st tok

/-- The `refreshToken` field of a request body: a JS string that is either
empty (falsy, never a stored token) or an encoded JWT. -/
inductive TokenStr
  | empty
  | tok (j : Jwt)
deriving DecidableEq, Repr

/-- What the refresh route handler sends back, together with the store it
leaves behind: HTTP status, and the new access token when status 200
(the `RefreshResponse` body is `{ success, accessToken }` and nothing
else — in particular no refresh token). -/
structure RefreshOutcome where
  status : Nat
  accessToken : Option Jwt
  store : RTStore

/-- Route `POST /api/auth/refresh` (auth.ts lines 324-386) at clock `now`:
missing/empty token → 400; token absent from the store → 401 (no signature
check); present but failing `jwt.verify` → 401 and the stale entry is
deleted; otherwise 200 with a freshly signed access token carrying the
refresh token's decoded `userId` and `email`. -/
def refreshHandler (st : RTStore) (rt : TokenStr) (now : Nat) : RefreshOutcome :=
  match rt with
  | .empty => { status := 400, accessToken := none, store := st }
  | .tok j =>
    match storeGet st j with
    | none => { status := 401, accessToken := none, store := st }
    | some _ =>
      if jwtVerifyOk j JWT_REFRESH_SECRET now then
        { status := 200
          accessToken := some (jwtSign j.userId j.email JWT_SECRET ACCESS_EXPIRY now)
          store := st }
      else
        { status := 401, accessToken := none, store := storeDelete st j }

/-- The token-issuing tail of `POST /api/auth/login` (auth.ts lines 85-98)
after the credential check: `generateTokens`, then
`refreshTokenStore.set(refreshToken, user.id)`. Returns the two tokens and
the updated store. -/
def loginIssue (st : RTStore) (userId email : String) (now : Nat) :
    (Jwt × Jwt) × RTStore :=
  let tokens := generateTokens userId email now
  (tokens, storeSet st tokens.2 userId)

/-- The revocation step of `POST /api/auth/logout` (auth.ts line 397):
`refreshTokenStore.delete(refreshToken)`, unconditionally. -/
def logoutRevoke (st : RTStore) (rt : Jwt) : RTStore :=
  storeDelete st rt

/-! ## Server side: `authMiddleware` (the protected-endpoint 401 gate) -/

/-- The `Authorization` header of a protected-endpoint request: absent,
present but not of the form `Bearer ...`, or a bearer token string. -/
inductive AuthHeader
  | missing
  | notBearer
  | bearer (t : TokenStr)

/-- What `authMiddleware` does with a request: either passes it on
(`next()`, modelled as status 200) or answers 401; `code` is the optional
machine-readable `code` field of the JSON error body. -/
structure MwOutcome where
  status : Nat
  code : Option String
deriving DecidableEq, Repr

/-- Middleware `authMiddleware` (tokenStore.ts file segment, lines 145-185) at clock
`now`: no header or not `Bearer ` → 401 with no `code`; `jwt.verify`
raising TokenExpiredError (signature good, expired) → 401 with
`code: "TOKEN_EXPIRED"`; any other verify failure (empty or garbled token,
wrong signature) → 401 with no `code`; valid → `next()`. -/
def authMiddleware (hdr : AuthHeader) (now : Nat) : MwOutcome :=
  match hdr with
  | .missing => { status := 401, code := none }
  | .notBearer => { status := 401, code := none }
  | .bearer .empty => { status := 401, code := none }
  | .bearer (.tok j) =>
    if j.secret ≠ JWT_SECRET then { status := 401, code := none }
    else if j.exp ≤ now then { status := 401, code := some "TOKEN_EXPIRED" }
    else { status := 200, code := none }

/-! ## Client-side step lemmas -/

lemma setCall_same (cs : Nat → Call) (i : Nat) (c : Call) : setCall cs i c i = c := by
  simp [setCall]

lemma setCall_other (cs : Nat → Call) (i : Nat) (c : Call) (j : Nat) (h : j ≠ i) :
    setCall cs i c j = cs j := by
  simp [setCall, h]

lemma handle401_surfaced (s : ClientState) (i : Nat)
    (h : (s.calls i).retryFlag = true) :
    handle401 s i =
      { s with calls := setCall s.calls i { s.calls i with phase := .surfaced } } := by
  simp [handle401, h]

lemma handle401_queued (s : ClientState) (i : Nat)
    (h : (s.calls i).retryFlag = false) (hr : s.isRefreshing = true) :
    handle401 s i =
      { s with failedQueue := s.failedQueue ++ [i]
               calls := setCall s.calls i { s.calls i with phase := .queued } } := by
  simp [handle401, h, hr]

lemma handle401_trigger (s : ClientState) (i : Nat) (rt : String)
    (h : (s.calls i).retryFlag = false) (hr : s.isRefreshing = false)
    (hrt : s.refreshTokenLS = some rt) :
    handle401 s i =
      { s with isRefreshing := true
               calls := setCall s.calls i
                 { s.calls i with retryFlag := true, phase := .awaitingRefresh }
               trace := s.trace ++ [Event.refreshPost] } := by
  simp [handle401, h, hr, hrt]

lemma handle401_noToken (s : ClientState) (i : Nat)
    (h : (s.calls i).retryFlag = false) (hr : s.isRefreshing = false)
    (hrt : s.refreshTokenLS = none) :
    handle401 s i =
      { s with isRefreshing := true
               accessToken := none
               refreshTokenLS := none
               calls := setCall s.calls i
                 { s.calls i with retryFlag := true, phase := .rejectedNoToken } } := by
  simp [handle401, h, hr, hrt]

/-- While a refresh is in flight, delivering 401s to any further calls
(with `_retry` unset) only queues them: no state other than the queue and
those calls' phases changes, and no event — in particular no refresh
POST — is emitted. -/
lemma runFailures_refreshing (L : List Nat) :
    ∀ s : ClientState, s.isRefreshing = true →
    (∀ j ∈ L, (s.calls j).retryFlag = false) →
    (runFailures s L).isRefreshing = true ∧
    (runFailures s L).failedQueue = s.failedQueue ++ L ∧
    (runFailures s L).trace = s.trace ∧
    (runFailures s L).accessToken = s.accessToken ∧
    (runFailures s L).refreshTokenLS = s.refreshTokenLS ∧
    (∀ j ∈ L, (runFailures s L).calls j = { retryFlag := false, phase := .queued }) ∧
    (∀ j, j ∉ L → (runFailures s L).calls j = s.calls j) := by
  induction L with
  | nil =>
    intro s h1 _
    simp [runFailures, h1]
  | cons a L ih =>
    intro s h1 h2
    have ha : (s.calls a).retryFlag = false := h2 a (List.mem_cons_self a L)
    have hstep := handle401_queued s a ha h1
    have hrun : runFailures s (a :: L) = runFailures (handle401 s a) L := rfl
    have hcalls : ∀ j, (handle401 s a).calls j =
        if j = a then { retryFlag := (s.calls a).retryFlag, phase := .queued }
        else s.calls j := by
      intro j; rw [hstep]; dsimp only; simp [setCall]
    have hq : (handle401 s a).failedQueue = s.failedQueue ++ [a] := by rw [hstep]
    have htr : (handle401 s a).trace = s.trace := by rw [hstep]
    have hacc : (handle401 s a).accessToken = s.accessToken := by rw [hstep]
    have hrtl : (handle401 s a).refreshTokenLS = s.refreshTokenLS := by rw [hstep]
    have h1' : (handle401 s a).isRefreshing = true := by rw [hstep]; exact h1
    have h2' : ∀ j ∈ L, ((handle401 s a).calls j).retryFlag = false := by
      intro j hj
      rw [hcalls]
      by_cases hja : j = a
      · simp [hja, ha]
      · simp only [hja, if_false]; exact h2 j (List.mem_cons_of_mem a hj)
    obtain ⟨c1, c2, c3, c4, c5, c6, c7⟩ := ih (handle401 s a) h1' h2'
    rw [hrun]
    refine ⟨c1, ?_, ?_, ?_, ?_, ?_, ?_⟩
    · rw [c2, hq]; simp
    · rw [c3, htr]
    · rw [c4, hacc]
    · rw [c5, hrtl]
    · intro j hj
      rcases List.mem_cons.mp hj with hja | hjL
      · subst hja
        by_cases hjL' : j ∈ L
        · exact c6 j hjL'
        · rw [c7 j hjL', hcalls]; simp [ha]
      · exact c6 j hjL
    · intro j hj
      have hja : j ≠ a := fun h => hj (h ▸ List.mem_cons_self a L)
      have hjL : j ∉ L := fun h => hj (List.mem_cons_of_mem a h)
      rw [c7 j hjL, hcalls]; simp [hja]

/-- The common scenario prefix of R1-R4: from a freshly initialised client
holding a durable refresh token, N in-flight calls `i :: rest` all receive
a 401 before the refresh completes. The first becomes the trigger (one
refresh POST, `_retry` set), the other N−1 are appended to the queue in
order, and exactly one refresh POST is ever recorded. -/
lemma runFailures_trigger_spec (acc : Option String) (rt : String) (i : Nat)
    (rest : List Nat) (hi : i ∉ rest) :
    (runFailures (initState acc (some rt)) (i :: rest)).isRefreshing = true ∧
    (runFailures (initState acc (some rt)) (i :: rest)).failedQueue = rest ∧
    (runFailures (initState acc (some rt)) (i :: rest)).trace = [Event.refreshPost] ∧
    (runFailures (initState acc (some rt)) (i :: rest)).accessToken = acc ∧
    (runFailures (initState acc (some rt)) (i :: rest)).refreshTokenLS = some rt ∧
    (runFailures (initState acc (some rt)) (i :: rest)).calls i =
      { retryFlag := true, phase := .awaitingRefresh } ∧
    (∀ j ∈ rest, (runFailures (initState acc (some rt)) (i :: rest)).calls j =
      { retryFlag := false, phase := .queued }) := by
  have hstep := handle401_trigger (initState acc (some rt)) i rt rfl rfl rfl
  have hrun : runFailures (initState acc (some rt)) (i :: rest) =
      runFailures (handle401 (initState acc (some rt)) i) rest := rfl
  have hcalls : ∀ j, (handle401 (initState acc (some rt)) i).calls j =
      if j = i then { retryFlag := true, phase := .awaitingRefresh } else Call.fresh := by
    intro j; rw [hstep]; dsimp only; simp [setCall, initState, Call.fresh]
  have hq : (handle401 (initState acc (some rt)) i).failedQueue = [] := by rw [hstep]; rfl
  have htr : (handle401 (initState acc (some rt)) i).trace = [Event.refreshPost] := by
    rw [hstep]; rfl
  have hacc : (handle401 (initState acc (some rt)) i).accessToken = acc := by rw [hstep]; rfl
  have hrtl : (handle401 (initState acc (some rt)) i).refreshTokenLS = some rt := by
    rw [hstep]; rfl
  have h1' : (handle401 (initState acc (some rt)) i).isRefreshing = true := by rw [hstep]
  have h2' : ∀ j ∈ rest, ((handle401 (initState acc (some rt)) i).calls j).retryFlag = false := by
    intro j hj
    have hji : j ≠ i := fun h => hi (h ▸ hj)
    rw [hcalls]; simp [hji, Call.fresh]
  obtain ⟨c1, c2, c3, c4, c5, c6, c7⟩ := runFailures_refreshing rest _ h1' h2'
  rw [hrun]
  refine ⟨c1, ?_, ?_, ?_, ?_, ?_, c6⟩
  · rw [c2, hq]; simp
  · rw [c3, htr]
  · rw [c4, hacc]
  · rw [c5, hrtl]
  · rw [c7 i hi, hcalls]; simp

/-- Resolution `processQueue(null, tok)` pointwise: queued ids get phase
`retried tok` (keeping their `_retry` flag), all other ids are untouched. -/
lemma resolveQueue_apply (q : List Nat) :
    ∀ (cs : Nat → Call) (tok : String) (j : Nat),
    resolveQueue cs q tok j =
      if j ∈ q then { cs j with phase := .retried tok } else cs j := by
  induction q with
  | nil => intro cs tok j; simp [resolveQueue]
  | cons a q ih =>
    intro cs tok j
    have hfold : resolveQueue cs (a :: q) tok =
        resolveQueue (setCall cs a { cs a with phase := .retried tok }) q tok := rfl
    rw [hfold, ih]
    by_cases hja : j = a
    · subst hja
      by_cases hj : j ∈ q <;> simp [hj, setCall]
    · by_cases hj : j ∈ q <;> simp [hj, hja, setCall]

/-- Rejection `processQueue(err)` pointwise: queued ids get phase
`rejectedRefresh err`, all other ids are untouched. -/
lemma rejectQueue_apply (q : List Nat) :
    ∀ (cs : Nat → Call) (err : Nat) (j : Nat),
    rejectQueue cs q err j =
      if j ∈ q then { cs j with phase := .rejectedRefresh err } else cs j := by
  induction q with
  | nil => intro cs err j; simp [rejectQueue]
  | cons a q ih =>
    intro cs err j
    have hfold : rejectQueue cs (a :: q) err =
        rejectQueue (setCall cs a { cs a with phase := .rejectedRefresh err }) q err := rfl
    rw [hfold, ih]
    by_cases hja : j = a
    · subst hja
      by_cases hj : j ∈ q <;> simp [hj, setCall]
    · by_cases hj : j ∈ q <;> simp [hj, hja, setCall]

/-- Pointwise view of the calls table after the success handler runs. -/
lemma refreshSuccess_calls (s : ClientState) (i : Nat) (newTok : String) (j : Nat) :
    (refreshSuccess s i newTok).calls j =
      if j = i then { s.calls i with phase := .retried newTok }
      else if j ∈ s.failedQueue then { s.calls j with phase := .retried newTok }
      else s.calls j := by
  show setCall (resolveQueue s.calls s.failedQueue newTok) i
      { s.calls i with phase := .retried newTok } j = _
  rw [setCall]
  by_cases hji : j = i
  · simp [hji]
  · simp only [hji, if_false]
    rw [resolveQueue_apply]

/-- Pointwise view of the calls table after the failure handler runs. -/
lemma refreshFailure_calls (s : ClientState) (i : Nat) (err : Nat) (j : Nat) :
    (refreshFailure s i err).calls j =
      if j = i then { s.calls i with phase := .rejectedRefresh err }
      else if j ∈ s.failedQueue then { s.calls j with phase := .rejectedRefresh err }
      else s.calls j := by
  show setCall (rejectQueue s.calls s.failedQueue err) i
      { s.calls i with phase := .rejectedRefresh err } j = _
  rw [setCall]
  by_cases hji : j = i
  · simp [hji]
  · simp only [hji, if_false]
    rw [rejectQueue_apply]

/-- Traces emitted by the success handler contain no refresh POST. -/
lemma countRefreshPosts_success_suffix (q : List Nat) (tok : String) :
    countRefreshPosts
      (Event.setToken tok :: q.map (fun j => Event.resume j tok)) = 0 := by
  rw [countRefreshPosts, List.countP_eq_zero]
  intro a ha
  rcases List.mem_cons.mp ha with h | h
  · subst h; simp
  · obtain ⟨j, _, rfl⟩ := List.mem_map.mp h; simp

/-- Resume events carry no `setToken`. -/
lemma countSetTokens_map_resume (q : List Nat) (tok : String) :
    countSetTokens (q.map (fun j => Event.resume j tok)) = 0 := by
  rw [countSetTokens, List.countP_eq_zero]
  intro a ha
  obtain ⟨j, _, rfl⟩ := List.mem_map.mp ha
  simp

/-- C1 (single-flight): from an idle client holding a durable refresh
token, if the N = 1 + |rest| in-progress calls `i :: rest` all receive a
401 before any refresh completes, exactly one refresh POST is sent to the
refresh endpoint; the other N−1 calls are appended to the pending queue
(no second refresh request: the count stays 1 even after the cycle ends),
and once the single refresh resolves with the new token every one of the N
calls is retried carrying that one refreshed token. -/
theorem C1_single_flight (acc : Option String) (rt newTok : String)
    (i : Nat) (rest : List Nat) (hi : i ∉ rest) :
    countRefreshPosts (runFailures (initState acc (some rt)) (i :: rest)).trace = 1 ∧
    (runFailures (initState acc (some rt)) (i :: rest)).failedQueue = rest ∧
    (∀ j ∈ rest,
      ((runFailures (initState acc (some rt)) (i :: rest)).calls j).phase = .queued) ∧
    countRefreshPosts
      (refreshSuccess (runFailures (initState acc (some rt)) (i :: rest)) i newTok).trace
      = 1 ∧
    (∀ j ∈ i :: rest,
      ((refreshSuccess (runFailures (initState acc (some rt)) (i :: rest)) i newTok).calls j).phase
        = .retried newTok) := by
  obtain ⟨c1, c2, c3, c4, c5, c6, c7⟩ := runFailures_trigger_spec acc rt i rest hi
  have htr2 : (refreshSuccess (runFailures (initState acc (some rt)) (i :: rest)) i newTok).trace
      = (runFailures (initState acc (some rt)) (i :: rest)).trace ++
        (Event.setToken newTok ::
          (runFailures (initState acc (some rt)) (i :: rest)).failedQueue.map
            (fun j => Event.resume j newTok)) := rfl
  refine ⟨?_, c2, ?_, ?_, ?_⟩
  · rw [c3]; rfl
  · intro j hj; rw [c7 j hj]
  · rw [htr2, countRefreshPosts, List.countP_append, ← countRefreshPosts,
      ← countRefreshPosts, c3, c2, countRefreshPosts_success_suffix]
    rfl
  · intro j hj
    rw [refreshSuccess_calls]
    rcases List.mem_cons.mp hj with hji | hjr
    · simp [hji]
    · have hji : j ≠ i := fun h => hi (h ▸ hjr)
      rw [c2]
      simp [hji, hjr]

/-- C1 witness at N = 3 concurrent calls. -/
theorem C1_single_flight_witness :
    (0 : Nat) ∉ [1, 2] ∧
    countRefreshPosts (runFailures (initState (some "a0") (some "rt0")) [0, 1, 2]).trace = 1 ∧
    (runFailures (initState (some "a0") (some "rt0")) [0, 1, 2]).failedQueue = [1, 2] ∧
    ((runFailures (initState (some "a0") (some "rt0")) [0, 1, 2]).calls 2).phase = .queued ∧
    countRefreshPosts
      (refreshSuccess (runFailures (initState (some "a0") (some "rt0")) [0, 1, 2]) 0 "t1").trace
      = 1 ∧
    ((refreshSuccess (runFailures (initState (some "a0") (some "rt0")) [0, 1, 2]) 0 "t1").calls 1).phase
      = .retried "t1" := by
  have h := C1_single_flight (some "a0") "rt0" "t1" 0 [1, 2] (by decide)
  exact ⟨by decide, h.1, h.2.1, h.2.2.1 2 (by decide), h.2.2.2.1,
    h.2.2.2.2 1 (by decide)⟩

/-- C2 (broadcast-then-resume): over the whole refresh cycle the shared
in-memory access token is updated exactly once (one `setToken` event), it
ends up holding the refreshed token, every queued caller is resolved with
that one new token (every `resume` event carries `newTok` and is preceded
in the trace by the `setToken newTok` event, so no caller resumes before
the update), and every call's retry carries the new — never the
pre-refresh — token. -/
theorem C2_broadcast_then_resume (acc : Option String) (rt newTok : String)
    (i : Nat) (rest : List Nat) (hi : i ∉ rest) :
    countSetTokens
      (refreshSuccess (runFailures (initState acc (some rt)) (i :: rest)) i newTok).trace
      = 1 ∧
    (refreshSuccess (runFailures (initState acc (some rt)) (i :: rest)) i newTok).accessToken
      = some newTok ∧
    (∀ q j tok,
      (refreshSuccess (runFailures (initState acc (some rt)) (i :: rest)) i newTok).trace.get? q
        = some (Event.resume j tok) →
      tok = newTok ∧ ∃ k, k < q ∧
        (refreshSuccess (runFailures (initState acc (some rt)) (i :: rest)) i newTok).trace.get? k
          = some (Event.setToken newTok)) ∧
    (∀ j ∈ i :: rest,
      ((refreshSuccess (runFailures (initState acc (some rt)) (i :: rest)) i newTok).calls j).phase
        = .retried newTok) := by
  obtain ⟨c1, c2, c3, c4, c5, c6, c7⟩ := runFailures_trigger_spec acc rt i rest hi
  have htrace :
      (refreshSuccess (runFailures (initState acc (some rt)) (i :: rest)) i newTok).trace
      = Event.refreshPost :: Event.setToken newTok ::
          rest.map (fun j => Event.resume j newTok) := by
    have h0 :
        (refreshSuccess (runFailures (initState acc (some rt)) (i :: rest)) i newTok).trace
        = (runFailures (initState acc (some rt)) (i :: rest)).trace ++
          (Event.setToken newTok ::
            (runFailures (initState acc (some rt)) (i :: rest)).failedQueue.map
              (fun j => Event.resume j newTok)) := rfl
    rw [h0, c3, c2]
    rfl
  refine ⟨?_, rfl, ?_, ?_⟩
  · rw [htrace, countSetTokens, List.countP_cons, List.countP_cons,
      ← countSetTokens, countSetTokens_map_resume]
    rfl
  · intro q j tok hq
    rw [htrace] at hq
    match q with
    | 0 => simp at hq
    | 1 => simp at hq
    | (q + 2) =>
      have hmem : Event.resume j tok ∈ rest.map (fun j => Event.resume j newTok) := by
        have hq' : (rest.map (fun j => Event.resume j newTok)).get? q
            = some (Event.resume j tok) := hq
        exact List.get?_mem hq'
      obtain ⟨j', _, heq⟩ := List.mem_map.mp hmem
      have htok : tok = newTok := by
        cases heq
        rfl
      refine ⟨htok, 1, by omega, ?_⟩
      rw [htrace]
      rfl
  · intro j hj
    rw [refreshSuccess_calls]
    rcases List.mem_cons.mp hj with hji | hjr
    · simp [hji]
    · have hji : j ≠ i := fun h => hi (h ▸ hjr)
      rw [c2]
      simp [hji, hjr]

/-- C2 witness at N = 3 concurrent calls: the trace of the cycle is
`[refreshPost, setToken, resume 1, resume 2]` — the token update precedes
both resumptions, each carrying the single new token. -/
theorem C2_broadcast_then_resume_witness :
    (0 : Nat) ∉ [1, 2] ∧
    countSetTokens
      (refreshSuccess (runFailures (initState (some "a0") (some "rt0")) [0, 1, 2]) 0 "t1").trace
      = 1 ∧
    (refreshSuccess (runFailures (initState (some "a0") (some "rt0")) [0, 1, 2]) 0 "t1").accessToken
      = some "t1" ∧
    ("t1" = "t1" ∧ ∃ k, k < 3 ∧
      (refreshSuccess (runFailures (initState (some "a0") (some "rt0")) [0, 1, 2]) 0 "t1").trace.get? k
        = some (Event.setToken "t1")) ∧
    ((refreshSuccess (runFailures (initState (some "a0") (some "rt0")) [0, 1, 2]) 0 "t1").calls 2).phase
      = .retried "t1" := by
  have h := C2_broadcast_then_resume (some "a0") "rt0" "t1" 0 [1, 2] (by decide)
  exact ⟨by decide, h.1, h.2.1, h.2.2.1 3 2 "t1" (by decide), h.2.2.2 2 (by decide)⟩

/-- C4 (failure fan-out): if the single refresh exchange fails with `err`,
every one of the N calls — the trigger and every queued follower — is
rejected with that same failure `err` (none is silently retried: no call
ends up `retried`, and the refresh POST count stays at 1), the in-memory
access token and the durable refresh token are both cleared, and the
coordinator returns to Idle (`isRefreshing = false`, empty queue). -/
theorem C4_failure_fanout (acc : Option String) (rt : String)
    (i : Nat) (rest : List Nat) (hi : i ∉ rest) (err : Nat) :
    (∀ j ∈ i :: rest,
      ((refreshFailure (runFailures (initState acc (some rt)) (i :: rest)) i err).calls j).phase
        = .rejectedRefresh err) ∧
    (refreshFailure (runFailures (initState acc (some rt)) (i :: rest)) i err).accessToken
      = none ∧
    (refreshFailure (runFailures (initState acc (some rt)) (i :: rest)) i err).refreshTokenLS
      = none ∧
    (refreshFailure (runFailures (initState acc (some rt)) (i :: rest)) i err).isRefreshing
      = false ∧
    (refreshFailure (runFailures (initState acc (some rt)) (i :: rest)) i err).failedQueue
      = [] ∧
    countRefreshPosts
      (refreshFailure (runFailures (initState acc (some rt)) (i :: rest)) i err).trace = 1 := by
  obtain ⟨c1, c2, c3, c4, c5, c6, c7⟩ := runFailures_trigger_spec acc rt i rest hi
  refine ⟨?_, rfl, rfl, rfl, rfl, ?_⟩
  · intro j hj
    rw [refreshFailure_calls]
    rcases List.mem_cons.mp hj with hji | hjr
    · simp [hji]
    · have hji : j ≠ i := fun h => hi (h ▸ hjr)
      rw [c2]
      simp [hji, hjr]
  · have h0 : (refreshFailure (runFailures (initState acc (some rt)) (i :: rest)) i err).trace
        = (runFailures (initState acc (some rt)) (i :: rest)).trace := rfl
    rw [h0, c3]
    rfl

/-- C4 witness at N = 3 concurrent calls. -/
theorem C4_failure_fanout_witness :
    (0 : Nat) ∉ [1, 2] ∧
    ((refreshFailure (runFailures (initState (some "a0") (some "rt0")) [0, 1, 2]) 0 7).calls 2).phase
      = .rejectedRefresh 7 ∧
    (refreshFailure (runFailures (initState (some "a0") (some "rt0")) [0, 1, 2]) 0 7).accessToken
      = none ∧
    (refreshFailure (runFailures (initState (some "a0") (some "rt0")) [0, 1, 2]) 0 7).refreshTokenLS
      = none ∧
    (refreshFailure (runFailures (initState (some "a0") (some "rt0")) [0, 1, 2]) 0 7).isRefreshing
      = false := by
  have h := C4_failure_fanout (some "a0") "rt0" 0 [1, 2] (by decide) 7
  exact ⟨by decide, h.1 2 (by decide), h.2.1, h.2.2.1, h.2.2.2.1⟩

/-- One full successful refresh cycle with trigger `i` and one queued
follower `f`: both calls end up retried with the new token, but only the
trigger's `_retry` flag was ever set — the queued-follower path of the
interceptor returns before the `originalRequest._retry = true` line. -/
def retryScenario (acc : Option String) (rt newTok : String) (i f : Nat) : ClientState :=
  refreshSuccess (handle401 (handle401 (initState acc (some rt)) i) f) i newTok

/-- State after the two-call refresh cycle: idle again, token refreshed,
trigger retried with `_retry` set, follower retried with `_retry` unset. -/
lemma retryScenario_spec (acc : Option String) (rt newTok : String) (i f : Nat)
    (hif : i ≠ f) :
    (retryScenario acc rt newTok i f).accessToken = some newTok ∧
    (retryScenario acc rt newTok i f).refreshTokenLS = some rt ∧
    (retryScenario acc rt newTok i f).isRefreshing = false ∧
    (retryScenario acc rt newTok i f).failedQueue = [] ∧
    (retryScenario acc rt newTok i f).trace =
      [Event.refreshPost, Event.setToken newTok, Event.resume f newTok] ∧
    (retryScenario acc rt newTok i f).calls i
      = { retryFlag := true, phase := .retried newTok } ∧
    (retryScenario acc rt newTok i f).calls f
      = { retryFlag := false, phase := .retried newTok } := by
  have hfi : f ≠ i := hif.symm
  have hstep1 := handle401_trigger (initState acc (some rt)) i rt rfl rfl rfl
  have hcalls1 : ∀ j, (handle401 (initState acc (some rt)) i).calls j =
      if j = i then { retryFlag := true, phase := .awaitingRefresh } else Call.fresh := by
    intro j; rw [hstep1]; dsimp only; simp [setCall, initState, Call.fresh]
  have hq1 : (handle401 (initState acc (some rt)) i).failedQueue = [] := by
    rw [hstep1]; rfl
  have htr1 : (handle401 (initState acc (some rt)) i).trace = [Event.refreshPost] := by
    rw [hstep1]; rfl
  have hrt1 : (handle401 (initState acc (some rt)) i).refreshTokenLS = some rt := by
    rw [hstep1]; rfl
  have hir1 : (handle401 (initState acc (some rt)) i).isRefreshing = true := by
    rw [hstep1]
  have hff : ((handle401 (initState acc (some rt)) i).calls f).retryFlag = false := by
    rw [hcalls1]; simp [hfi, Call.fresh]
  have hstep2 := handle401_queued (handle401 (initState acc (some rt)) i) f hff hir1
  have hcalls2 : ∀ j, (handle401 (handle401 (initState acc (some rt)) i) f).calls j =
      if j = f then { retryFlag := false, phase := .queued }
      else (handle401 (initState acc (some rt)) i).calls j := by
    intro j
    rw [hstep2]; dsimp only
    by_cases hjf : j = f
    · simp [hjf, setCall, hff]
    · simp [hjf, setCall]
  have hq2 : (handle401 (handle401 (initState acc (some rt)) i) f).failedQueue = [f] := by
    rw [hstep2]; dsimp only; rw [hq1]; rfl
  have htr2 : (handle401 (handle401 (initState acc (some rt)) i) f).trace
      = [Event.refreshPost] := by
    rw [hstep2]; dsimp only; rw [htr1]
  have hrt2 : (handle401 (handle401 (initState acc (some rt)) i) f).refreshTokenLS
      = some rt := by
    rw [hstep2]; dsimp only; rw [hrt1]
  have htr3 : (retryScenario acc rt newTok i f).trace
      = [Event.refreshPost, Event.setToken newTok, Event.resume f newTok] := by
    have h0 : (retryScenario acc rt newTok i f).trace
        = (handle401 (handle401 (initState acc (some rt)) i) f).trace ++
          (Event.setToken newTok ::
            (handle401 (handle401 (initState acc (some rt)) i) f).failedQueue.map
              (fun j => Event.resume j newTok)) := rfl
    rw [h0, htr2, hq2]; rfl
  refine ⟨rfl, hrt2, rfl, rfl, htr3, ?_, ?_⟩
  · rw [retryScenario, refreshSuccess_calls]
    simp only [if_pos rfl]
    rw [hcalls2]
    simp [hif, hcalls1]
  · rw [retryScenario, refreshSuccess_calls]
    simp only [hfi, if_false]
    rw [hq2, hcalls2]
    simp

/-- C3 counterexample: trigger call 0 and follower call 1 go through one
successful refresh; the follower is retried and fails with 401 a second
time. The claim says it is not queued again and does not trigger another
refresh, the failure being surfaced — but the code, which never set
`_retry` on the follower, starts a second refresh exchange on its behalf
(refresh POST count 2, follower awaiting refresh, not surfaced). -/
theorem C3_counterexample :
    ((retryScenario (some "a0") "rt0" "t1" 0 1).calls 1).phase = .retried "t1" ∧
    ((retryScenario (some "a0") "rt0" "t1" 0 1).calls 1).retryFlag = false ∧
    countRefreshPosts (handle401 (retryScenario (some "a0") "rt0" "t1" 0 1) 1).trace = 2 ∧
    ((handle401 (retryScenario (some "a0") "rt0" "t1" 0 1) 1).calls 1).phase
      = .awaitingRefresh ∧
    ((handle401 (retryScenario (some "a0") "rt0" "t1" 0 1) 1).calls 1).phase
      ≠ .surfaced := by
  decide

/-- C3 as amended: the TRIGGER call is retried at most once — its `_retry`
flag is set before the refresh, so a second 401 on its retried request is
surfaced without queueing and without another refresh POST. A queued
FOLLOWER's retried request however is sent with `_retry` still unset, so a
second 401 on it re-enters the refresh path: here it starts a second
refresh exchange instead of surfacing the failure. -/
theorem C3_single_retry (acc : Option String) (rt newTok : String) (i f : Nat)
    (hif : i ≠ f) :
    ((retryScenario acc rt newTok i f).calls i).retryFlag = true ∧
    ((handle401 (retryScenario acc rt newTok i f) i).calls i).phase = .surfaced ∧
    countRefreshPosts (handle401 (retryScenario acc rt newTok i f) i).trace = 1 ∧
    (handle401 (retryScenario acc rt newTok i f) i).failedQueue = [] ∧
    ((retryScenario acc rt newTok i f).calls f).retryFlag = false ∧
    countRefreshPosts (handle401 (retryScenario acc rt newTok i f) f).trace = 2 ∧
    ((handle401 (retryScenario acc rt newTok i f) f).calls f).phase
      = .awaitingRefresh := by
  obtain ⟨s1, s2, s3, s4, s5, s6, s7⟩ := retryScenario_spec acc rt newTok i f hif
  have hcount : countRefreshPosts (retryScenario acc rt newTok i f).trace = 1 := by
    rw [s5, countRefreshPosts, List.countP_cons, List.countP_cons, List.countP_cons]
    simp
  have hri : ((retryScenario acc rt newTok i f).calls i).retryFlag = true := by
    rw [s6]
  have hstepi := handle401_surfaced (retryScenario acc rt newTok i f) i hri
  have hrf : ((retryScenario acc rt newTok i f).calls f).retryFlag = false := by
    rw [s7]
  have hstepf := handle401_trigger (retryScenario acc rt newTok i f) f rt hrf s3 s2
  refine ⟨hri, ?_, ?_, ?_, hrf, ?_, ?_⟩
  · rw [hstepi]; dsimp only; simp [setCall, s6]
  · have h0 : (handle401 (retryScenario acc rt newTok i f) i).trace
        = (retryScenario acc rt newTok i f).trace := by rw [hstepi]
    rw [h0, hcount]
  · have h0 : (handle401 (retryScenario acc rt newTok i f) i).failedQueue
        = (retryScenario acc rt newTok i f).failedQueue := by rw [hstepi]
    rw [h0, s4]
  · have h0 : (handle401 (retryScenario acc rt newTok i f) f).trace
        = (retryScenario acc rt newTok i f).trace ++ [Event.refreshPost] := by
      rw [hstepf]
    rw [h0, countRefreshPosts, List.countP_append, ← countRefreshPosts,
      ← countRefreshPosts, hcount]
    rfl
  · rw [hstepf]; dsimp only; simp [setCall]

/-- C3 amended-claim witness at trigger 0, follower 1. -/
theorem C3_single_retry_witness :
    (0 : Nat) ≠ 1 ∧
    ((retryScenario (some "x") "r" "t" 0 1).calls 0).retryFlag = true ∧
    ((handle401 (retryScenario (some "x") "r" "t" 0 1) 0).calls 0).phase = .surfaced ∧
    countRefreshPosts (handle401 (retryScenario (some "x") "r" "t" 0 1) 0).trace = 1 ∧
    ((retryScenario (some "x") "r" "t" 0 1).calls 1).retryFlag = false ∧
    countRefreshPosts (handle401 (retryScenario (some "x") "r" "t" 0 1) 1).trace = 2 := by
  have h := C3_single_retry (some "x") "r" "t" 0 1 (by decide)
  exact ⟨by decide, h.1, h.2.1, h.2.2.1, h.2.2.2.2.1, h.2.2.2.2.2.1⟩

/-- C5 counterexample: a 401 arrives at call 0 while the coordinator is
Idle and durable storage holds no refresh token. The claim says the
coordinator behaves as on a failed refresh exchange and "returns to Idle so
that a later authorization failure can start a new refresh cycle" — but in
the code the `finally { isRefreshing = false }` belongs to the try around
the refresh POST, which this branch never enters: `isRefreshing` stays
`true`, so a later 401 (call 1) is queued behind a refresh that will never
complete and no refresh POST is ever sent. -/
theorem C5_counterexample :
    (handle401 (initState (some "a0") none) 0).isRefreshing = true ∧
    countRefreshPosts (handle401 (handle401 (initState (some "a0") none) 0) 1).trace = 0 ∧
    ((handle401 (handle401 (initState (some "a0") none) 0) 1).calls 1).phase
      = .queued := by
  decide

/-- C5 as amended: on a 401 from Idle with no durable refresh token the
code clears both tokens, rejects the triggering call (and navigates to the
login page — the page reload being what effectively resets the module
state), sends no refresh request, and leaves the queue empty; but it does
NOT return to Idle: `isRefreshing` remains `true`, so within the same page
lifetime a later 401 on another call is appended to the queue — with no
refresh exchange ever issued — instead of starting a new refresh cycle. -/
theorem C5_missing_refresh_token (acc : Option String) (i k : Nat) (hk : k ≠ i) :
    (handle401 (initState acc none) i).accessToken = none ∧
    (handle401 (initState acc none) i).refreshTokenLS = none ∧
    ((handle401 (initState acc none) i).calls i).phase = .rejectedNoToken ∧
    countRefreshPosts (handle401 (initState acc none) i).trace = 0 ∧
    (handle401 (initState acc none) i).failedQueue = [] ∧
    (handle401 (initState acc none) i).isRefreshing = true ∧
    (handle401 (handle401 (initState acc none) i) k).failedQueue = [k] ∧
    countRefreshPosts (handle401 (handle401 (initState acc none) i) k).trace = 0 ∧
    ((handle401 (handle401 (initState acc none) i) k).calls k).phase = .queued := by
  have hstep1 := handle401_noToken (initState acc none) i rfl rfl rfl
  have hacc1 : (handle401 (initState acc none) i).accessToken = none := by
    rw [hstep1]
  have hrt1 : (handle401 (initState acc none) i).refreshTokenLS = none := by
    rw [hstep1]
  have hir1 : (handle401 (initState acc none) i).isRefreshing = true := by
    rw [hstep1]
  have hq1 : (handle401 (initState acc none) i).failedQueue = [] := by
    rw [hstep1]; rfl
  have htr1 : (handle401 (initState acc none) i).trace = [] := by
    rw [hstep1]; rfl
  have hcalls1 : ∀ j, (handle401 (initState acc none) i).calls j =
      if j = i then { retryFlag := true, phase := .rejectedNoToken } else Call.fresh := by
    intro j; rw [hstep1]; dsimp only; simp [setCall, initState, Call.fresh]
  have hkf : ((handle401 (initState acc none) i).calls k).retryFlag = false := by
    rw [hcalls1]; simp [hk, Call.fresh]
  have hstep2 := handle401_queued (handle401 (initState acc none) i) k hkf hir1
  refine ⟨hacc1, hrt1, ?_, ?_, hq1, hir1, ?_, ?_, ?_⟩
  · rw [hcalls1]; simp
  · rw [htr1]; rfl
  · rw [hstep2]; dsimp only; rw [hq1]; rfl
  · have h0 : (handle401 (handle401 (initState acc none) i) k).trace
        = (handle401 (initState acc none) i).trace := by rw [hstep2]
    rw [h0, htr1]; rfl
  · rw [hstep2]; dsimp only; simp [setCall]

/-- C5 amended-claim witness at trigger 0, later call 1. -/
theorem C5_missing_refresh_token_witness :
    (1 : Nat) ≠ 0 ∧
    (handle401 (initState (some "a0") none) 0).accessToken = none ∧
    (handle401 (initState (some "a0") none) 0).refreshTokenLS = none ∧
    (handle401 (initState (some "a0") none) 0).isRefreshing = true ∧
    (handle401 (handle401 (initState (some "a0") none) 0) 1).failedQueue = [1] := by
  have h := C5_missing_refresh_token (some "a0") 0 1 (by decide)
  exact ⟨by decide, h.1, h.2.1, h.2.2.2.2.2.1, h.2.2.2.2.2.2.1⟩

/-! ## Store lemmas -/

lemma storeGet_set_self (st : RTStore) (tok : Jwt) (u : String) :
    storeGet (storeSet st tok u) tok = some u := by
  simp [storeSet, storeGet]

lemma storeGet_delete_self (st : RTStore) (tok : Jwt) :
    storeGet (storeDelete st tok) tok = none := by
  induction st with
  | nil => rfl
  | cons p rest ih =>
    obtain ⟨k, v⟩ := p
    rw [show storeDelete ((k, v) :: rest) tok
        = if k = tok then storeDelete rest tok else (k, v) :: storeDelete rest tok from rfl]
    by_cases hk : k = tok
    · rw [if_pos hk]; exact ih
    · rw [if_neg hk]
      rw [show storeGet ((k, v) :: storeDelete rest tok) tok
          = if k = tok then some v else storeGet (storeDelete rest tok) tok from rfl]
      rw [if_neg hk]; exact ih

lemma storeGet_delete_other (st : RTStore) (tok tok' : Jwt) (h : tok' ≠ tok) :
    storeGet (storeDelete st tok) tok' = storeGet st tok' := by
  induction st with
  | nil => rfl
  | cons p rest ih =>
    obtain ⟨k, v⟩ := p
    rw [show storeDelete ((k, v) :: rest) tok
        = if k = tok then storeDelete rest tok else (k, v) :: storeDelete rest tok from rfl]
    rw [show storeGet ((k, v) :: rest) tok'
        = if k = tok' then some v else storeGet rest tok' from rfl]
    by_cases hk : k = tok
    · rw [if_pos hk]
      have hk' : ¬ k = tok' := fun hh => h (hh ▸ hk)
      rw [if_neg hk', ih]
    · rw [if_neg hk]
      rw [show storeGet ((k, v) :: storeDelete rest tok) tok'
          = if k = tok' then some v else storeGet (storeDelete rest tok) tok' from rfl]
      by_cases hq : k = tok'
      · rw [if_pos hq, if_pos hq]
      · rw [if_neg hq, if_neg hq, ih]

/-- Success criterion of the refresh route, for reuse. -/
lemma refreshHandler_ok (st : RTStore) (j : Jwt) (now : Nat) (u : String)
    (hg : storeGet st j = some u)
    (hv : jwtVerifyOk j JWT_REFRESH_SECRET now = true) :
    refreshHandler st (.tok j) now =
      { status := 200
        accessToken := some (jwtSign j.userId j.email JWT_SECRET ACCESS_EXPIRY now)
        store := st } := by
  simp [refreshHandler, hg, hv]

/-- C6 counterexample: the empty refresh-token string is (vacuously) absent
from the server-side store, yet the route answers 400 ("Refresh token is
required"), not 401 — the missing/empty-field guard runs before the store
lookup, so "absent → 401" does not hold for every presented string. -/
theorem C6_counterexample :
    (refreshHandler ([] : RTStore) TokenStr.empty 0).status = 400 ∧
    (refreshHandler ([] : RTStore) TokenStr.empty 0).status ≠ 401 := by
  decide

/-- C6 as amended: for every refresh-token string that is a (nonempty)
encoded token: if it is absent from the revocation store the route fails
401 with no further checks (the store is untouched and no access token is
minted, regardless of the token's cryptographic validity); if it is present
but signature/expiry verification fails, the route fails 401 and deletes
the stale entry; it succeeds (200) exactly when the token is both present
and cryptographically valid. A missing or empty token field is rejected
with 400 before the store lookup. -/
theorem C6_refresh_validation (st : RTStore) (j : Jwt) (now : Nat) :
    (storeGet st j = none →
      (refreshHandler st (.tok j) now).status = 401 ∧
      (refreshHandler st (.tok j) now).store = st ∧
      (refreshHandler st (.tok j) now).accessToken = none) ∧
    (∀ u, storeGet st j = some u →
      jwtVerifyOk j JWT_REFRESH_SECRET now = false →
      (refreshHandler st (.tok j) now).status = 401 ∧
      (refreshHandler st (.tok j) now).store = storeDelete st j ∧
      (refreshHandler st (.tok j) now).accessToken = none) ∧
    ((refreshHandler st (.tok j) now).status = 200 ↔
      (storeGet st j).isSome = true ∧ jwtVerifyOk j JWT_REFRESH_SECRET now = true) ∧
    (refreshHandler st TokenStr.empty now).status = 400 := by
  refine ⟨?_, ?_, ?_, rfl⟩
  · intro hg
    refine ⟨?_, ?_, ?_⟩ <;> simp [refreshHandler, hg]
  · intro u hg hv
    refine ⟨?_, ?_, ?_⟩ <;> simp [refreshHandler, hg, hv]
  · constructor
    · intro h
      cases hg : storeGet st j with
      | none => rw [refreshHandler] at h; rw [hg] at h; simp at h
      | some u =>
        by_cases hv : jwtVerifyOk j JWT_REFRESH_SECRET now = true
        · exact ⟨rfl, hv⟩
        · rw [refreshHandler] at h; rw [hg] at h
          simp [hv] at h
    · rintro ⟨hg, hv⟩
      obtain ⟨u, hu⟩ := Option.isSome_iff_exists.mp hg
      simp [refreshHandler, hu, hv]

/-- C6 amended-claim witness: a valid-looking token absent from the store
is refused 401 with the store untouched and no token minted. -/
theorem C6_refresh_validation_witness :
    storeGet ([] : RTStore) (jwtSign "u1" "u1@mail.com" JWT_REFRESH_SECRET REFRESH_EXPIRY 0)
      = none ∧
    (refreshHandler ([] : RTStore)
      (.tok (jwtSign "u1" "u1@mail.com" JWT_REFRESH_SECRET REFRESH_EXPIRY 0)) 10).status
      = 401 ∧
    (refreshHandler ([] : RTStore)
      (.tok (jwtSign "u1" "u1@mail.com" JWT_REFRESH_SECRET REFRESH_EXPIRY 0)) 10).accessToken
      = none := by
  have h := (C6_refresh_validation ([] : RTStore)
    (jwtSign "u1" "u1@mail.com" JWT_REFRESH_SECRET REFRESH_EXPIRY 0) 10).1 rfl
  exact ⟨rfl, h.1, h.2.2⟩

/-- C7 counterexample: a request with no `Authorization` header at all
(access token absent) is answered 401 by `authMiddleware`, but with NO
machine-readable `code` field in the body ("No token provided" carries only
a message) — so "every protected endpoint responds 401 with a
machine-distinguishable error code whenever the access token is absent,
malformed, or expired" fails in the absent case. -/
theorem C7_counterexample :
    (authMiddleware AuthHeader.missing 0).status = 401 ∧
    (authMiddleware AuthHeader.missing 0).code = none := by
  decide

/-- C7 as amended: the client-side trigger is the HTTP status alone — the
interceptor enters the refresh path exactly when the response status is 401
and `_retry` is unset, regardless of any error code (so any 401, whatever
its cause, triggers it); the protected-endpoint middleware answers 401
whenever the access token is absent, malformed (bad signature / not a
token / header not `Bearer`), or expired, but only the expired case
carries the distinguishing `code: "TOKEN_EXPIRED"` — the absent and
malformed cases return 401 with no `code` field. -/
theorem C7_401_trigger (now : Nat) (j : Jwt) :
    shouldHandle401 401 false = true ∧
    shouldHandle401 401 true = false ∧
    (∀ st : Nat, shouldHandle401 st false = true → st = 401) ∧
    (authMiddleware .missing now).status = 401 ∧
    (authMiddleware .missing now).code = none ∧
    (authMiddleware .notBearer now).status = 401 ∧
    (authMiddleware .notBearer now).code = none ∧
    (authMiddleware (.bearer .empty) now).status = 401 ∧
    (authMiddleware (.bearer .empty) now).code = none ∧
    (j.secret ≠ JWT_SECRET →
      (authMiddleware (.bearer (.tok j)) now).status = 401 ∧
      (authMiddleware (.bearer (.tok j)) now).code = none) ∧
    (j.secret = JWT_SECRET → j.exp ≤ now →
      (authMiddleware (.bearer (.tok j)) now).status = 401 ∧
      (authMiddleware (.bearer (.tok j)) now).code = some "TOKEN_EXPIRED") := by
  refine ⟨rfl, rfl, ?_, rfl, rfl, rfl, rfl, rfl, rfl, ?_, ?_⟩
  · intro st hst
    rw [shouldHandle401] at hst
    simp at hst
    exact hst
  · intro hs
    constructor <;> simp [authMiddleware, hs]
  · intro hs he
    constructor <;> simp [authMiddleware, hs, he]

/-- C7 amended-claim witness: an expired, correctly-signed access token at
its exact expiry instant gets the 401 with `code: "TOKEN_EXPIRED"`. -/
theorem C7_401_trigger_witness :
    (jwtSign "u1" "u1@mail.com" JWT_SECRET ACCESS_EXPIRY 0).secret = JWT_SECRET ∧
    (jwtSign "u1" "u1@mail.com" JWT_SECRET ACCESS_EXPIRY 0).exp ≤ 900 ∧
    (authMiddleware
      (.bearer (.tok (jwtSign "u1" "u1@mail.com" JWT_SECRET ACCESS_EXPIRY 0))) 900).status
      = 401 ∧
    (authMiddleware
      (.bearer (.tok (jwtSign "u1" "u1@mail.com" JWT_SECRET ACCESS_EXPIRY 0))) 900).code
      = some "TOKEN_EXPIRED" := by
  obtain ⟨-, -, -, -, -, -, -, -, -, -, h11⟩ :=
    C7_401_trigger 900 (jwtSign "u1" "u1@mail.com" JWT_SECRET ACCESS_EXPIRY 0)
  obtain ⟨ha, hb⟩ := h11 rfl (by decide)
  exact ⟨rfl, by decide, ha, hb⟩

/-- C8: whenever the refresh route mints an access token, that access
token's subject claims (`userId`, `email`) are exactly the claims decoded
from the presented refresh token — `jwt.sign({ userId: decoded.userId,
email: decoded.email }, ...)`. -/
theorem C8_subject_preserved (st : RTStore) (j : Jwt) (now : Nat) (a : Jwt)
    (h : (refreshHandler st (.tok j) now).accessToken = some a) :
    a.userId = j.userId ∧ a.email = j.email := by
  rw [refreshHandler] at h
  cases hg : storeGet st j with
  | none => rw [hg] at h; simp at h
  | some u =>
    rw [hg] at h
    by_cases hv : jwtVerifyOk j JWT_REFRESH_SECRET now = true
    · rw [if_pos hv] at h
      have ha : a = jwtSign j.userId j.email JWT_SECRET ACCESS_EXPIRY now :=
        (Option.some.inj h).symm
      subst ha
      exact ⟨rfl, rfl⟩
    · rw [if_neg hv] at h
      simp at h

/-- C8 witness: refreshing with a stored, valid refresh token for subject
`u1` yields an access token whose claims' subject equals `u1`. -/
theorem C8_subject_preserved_witness :
    (refreshHandler
        (storeSet [] (jwtSign "u1" "u1@mail.com" JWT_REFRESH_SECRET REFRESH_EXPIRY 0) "u1")
        (.tok (jwtSign "u1" "u1@mail.com" JWT_REFRESH_SECRET REFRESH_EXPIRY 0)) 10).accessToken
      = some (jwtSign "u1" "u1@mail.com" JWT_SECRET ACCESS_EXPIRY 10) ∧
    (jwtSign "u1" "u1@mail.com" JWT_SECRET ACCESS_EXPIRY 10).userId
      = (jwtSign "u1" "u1@mail.com" JWT_REFRESH_SECRET REFRESH_EXPIRY 0).userId ∧
    (jwtSign "u1" "u1@mail.com" JWT_SECRET ACCESS_EXPIRY 10).email
      = (jwtSign "u1" "u1@mail.com" JWT_REFRESH_SECRET REFRESH_EXPIRY 0).email := by
  have h := C8_subject_preserved
    (storeSet [] (jwtSign "u1" "u1@mail.com" JWT_REFRESH_SECRET REFRESH_EXPIRY 0) "u1")
    (jwtSign "u1" "u1@mail.com" JWT_REFRESH_SECRET REFRESH_EXPIRY 0) 10
    (jwtSign "u1" "u1@mail.com" JWT_SECRET ACCESS_EXPIRY 10) (by decide)
  exact ⟨by decide, h.1, h.2⟩

lemma storeGet_set_other (st : RTStore) (tok : Jwt) (u : String) (tok' : Jwt)
    (h : tok' ≠ tok) :
    storeGet (storeSet st tok u) tok' = storeGet st tok' := by
  rw [storeSet,
    show storeGet ((tok, u) :: storeDelete st tok) tok'
      = if tok = tok' then some u else storeGet (storeDelete st tok) tok' from rfl,
    if_neg (fun hh => h hh.symm), storeGet_delete_other st tok tok' h]

/-- C9 (no rotation): a successful refresh exchange leaves the server-side
revocation store completely unchanged — the refresh token is not rotated,
not re-stored, and stays mapped to the same subject — and the response body
(`RefreshResponse`) carries only the new access token. Consequently the
same refresh token keeps succeeding at any instant before its own expiry,
while after explicit revocation it is refused (401, nothing minted). -/
theorem C9_no_rotation (st : RTStore) (j : Jwt) (now : Nat)
    (h : (refreshHandler st (.tok j) now).status = 200) :
    (refreshHandler st (.tok j) now).store = st ∧
    (∀ t, t < j.exp →
      (refreshHandler st (.tok j) t).status = 200 ∧
      (refreshHandler st (.tok j) t).store = st) ∧
    (refreshHandler (logoutRevoke st j) (.tok j) now).status = 401 ∧
    (refreshHandler (logoutRevoke st j) (.tok j) now).accessToken = none := by
  cases hg : storeGet st j with
  | none => rw [refreshHandler, hg] at h; simp at h
  | some u =>
    by_cases hv : jwtVerifyOk j JWT_REFRESH_SECRET now = true
    · have hsec : (j.secret == JWT_REFRESH_SECRET) = true := by
        have hv' := hv
        rw [jwtVerifyOk, Bool.and_eq_true] at hv'
        exact hv'.1
      refine ⟨?_, ?_, ?_, ?_⟩
      · rw [refreshHandler_ok st j now u hg hv]
      · intro t ht
        have hvt : jwtVerifyOk j JWT_REFRESH_SECRET t = true := by
          rw [jwtVerifyOk, Bool.and_eq_true]
          exact ⟨hsec, by simpa using ht⟩
        rw [refreshHandler_ok st j t u hg hvt]
        exact ⟨rfl, rfl⟩
      · rw [show logoutRevoke st j = storeDelete st j from rfl, refreshHandler,
          storeGet_delete_self]
      · rw [show logoutRevoke st j = storeDelete st j from rfl, refreshHandler,
          storeGet_delete_self]
    · rw [refreshHandler, hg, if_neg hv] at h
      simp at h

/-- C9 witness: a stored 7-day refresh token minted at time 0; refreshing
at time 10 succeeds with the store unchanged; it still succeeds at time 5;
after revocation it is refused. -/
theorem C9_no_rotation_witness :
    (refreshHandler
        (storeSet [] (jwtSign "u1" "u1@mail.com" JWT_REFRESH_SECRET REFRESH_EXPIRY 0) "u1")
        (.tok (jwtSign "u1" "u1@mail.com" JWT_REFRESH_SECRET REFRESH_EXPIRY 0)) 10).status
      = 200 ∧
    (refreshHandler
        (storeSet [] (jwtSign "u1" "u1@mail.com" JWT_REFRESH_SECRET REFRESH_EXPIRY 0) "u1")
        (.tok (jwtSign "u1" "u1@mail.com" JWT_REFRESH_SECRET REFRESH_EXPIRY 0)) 10).store
      = storeSet [] (jwtSign "u1" "u1@mail.com" JWT_REFRESH_SECRET REFRESH_EXPIRY 0) "u1" ∧
    (refreshHandler
        (logoutRevoke
          (storeSet [] (jwtSign "u1" "u1@mail.com" JWT_REFRESH_SECRET REFRESH_EXPIRY 0) "u1")
          (jwtSign "u1" "u1@mail.com" JWT_REFRESH_SECRET REFRESH_EXPIRY 0))
        (.tok (jwtSign "u1" "u1@mail.com" JWT_REFRESH_SECRET REFRESH_EXPIRY 0)) 10).status
      = 401 := by
  have h := C9_no_rotation
    (storeSet [] (jwtSign "u1" "u1@mail.com" JWT_REFRESH_SECRET REFRESH_EXPIRY 0) "u1")
    (jwtSign "u1" "u1@mail.com" JWT_REFRESH_SECRET REFRESH_EXPIRY 0) 10 (by decide)
  exact ⟨by decide, h.1, h.2.2.1⟩

/-- C10 counterexample: two logins of the same user within the same clock
second (`jwt.sign` is deterministic: same payload, same `iat`, same secret,
no `jti`) yield the IDENTICAL refresh token, which occupies a single store
entry — so revoking "one" of them makes a refresh with "the other" fail
401 even though that token is still cryptographically valid. The two mints
are not independently revocable. -/
theorem C10_counterexample :
    (loginIssue [] "u1" "u1@mail.com" 100).1.2
      = (loginIssue (loginIssue [] "u1" "u1@mail.com" 100).2 "u1" "u1@mail.com" 100).1.2 ∧
    jwtVerifyOk (loginIssue [] "u1" "u1@mail.com" 100).1.2 JWT_REFRESH_SECRET 101 = true ∧
    (refreshHandler
        (logoutRevoke
          (loginIssue (loginIssue [] "u1" "u1@mail.com" 100).2 "u1" "u1@mail.com" 100).2
          (loginIssue [] "u1" "u1@mail.com" 100).1.2)
        (.tok (loginIssue (loginIssue [] "u1" "u1@mail.com" 100).2 "u1" "u1@mail.com" 100).1.2)
        101).status = 401 := by
  decide

/-- C10 as amended: two mint calls for the same subject AT DISTINCT
issuance seconds yield two distinct refresh tokens that are each
independently valid and independently revocable — after both logins,
revoking either one leaves the other still accepted by the refresh
operation (within its validity window). Mints within the same second yield
the identical token string and share one store entry, so revoking one
revokes the other. -/
theorem C10_independent_mints (u e : String) (t1 t2 now : Nat) (h12 : t1 ≠ t2)
    (h1 : now < t1 + REFRESH_EXPIRY) (h2 : now < t2 + REFRESH_EXPIRY) :
    (generateTokens u e t1).2 ≠ (generateTokens u e t2).2 ∧
    (refreshHandler
        (logoutRevoke (loginIssue (loginIssue [] u e t1).2 u e t2).2
          (generateTokens u e t1).2)
        (.tok (generateTokens u e t2).2) now).status = 200 ∧
    (refreshHandler
        (logoutRevoke (loginIssue (loginIssue [] u e t1).2 u e t2).2
          (generateTokens u e t2).2)
        (.tok (generateTokens u e t1).2) now).status = 200 := by
  have hne : (generateTokens u e t1).2 ≠ (generateTokens u e t2).2 := by
    intro hh
    exact h12 (congrArg Jwt.iat hh)
  have hst2 : (loginIssue (loginIssue [] u e t1).2 u e t2).2
      = storeSet (storeSet [] (generateTokens u e t1).2 u) (generateTokens u e t2).2 u := rfl
  have hv1 : jwtVerifyOk (generateTokens u e t1).2 JWT_REFRESH_SECRET now = true := by
    rw [jwtVerifyOk, Bool.and_eq_true]
    exact ⟨rfl, by simpa using h1⟩
  have hv2 : jwtVerifyOk (generateTokens u e t2).2 JWT_REFRESH_SECRET now = true := by
    rw [jwtVerifyOk, Bool.and_eq_true]
    exact ⟨rfl, by simpa using h2⟩
  refine ⟨hne, ?_, ?_⟩
  · have hg : storeGet
        (storeDelete
          (storeSet (storeSet [] (generateTokens u e t1).2 u) (generateTokens u e t2).2 u)
          (generateTokens u e t1).2)
        (generateTokens u e t2).2 = some u := by
      rw [storeGet_delete_other _ _ _ hne.symm, storeGet_set_self]
    rw [show logoutRevoke (loginIssue (loginIssue [] u e t1).2 u e t2).2
          (generateTokens u e t1).2
        = storeDelete
            (storeSet (storeSet [] (generateTokens u e t1).2 u) (generateTokens u e t2).2 u)
            (generateTokens u e t1).2 from rfl]
    rw [refreshHandler_ok _ _ _ u hg hv2]
  · have hg : storeGet
        (storeDelete
          (storeSet (storeSet [] (generateTokens u e t1).2 u) (generateTokens u e t2).2 u)
          (generateTokens u e t2).2)
        (generateTokens u e t1).2 = some u := by
      rw [storeGet_delete_other _ _ _ hne, storeGet_set_other _ _ _ _ hne,
        storeGet_set_self]
    rw [show logoutRevoke (loginIssue (loginIssue [] u e t1).2 u e t2).2
          (generateTokens u e t2).2
        = storeDelete
            (storeSet (storeSet [] (generateTokens u e t1).2 u) (generateTokens u e t2).2 u)
            (generateTokens u e t2).2 from rfl]
    rw [refreshHandler_ok _ _ _ u hg hv1]

/-- C10 amended-claim witness: logins at seconds 0 and 1; revoking the
first leaves the second accepted at time 2, and vice versa. -/
theorem C10_independent_mints_witness :
    (0 : Nat) ≠ 1 ∧ (2 : Nat) < 0 + REFRESH_EXPIRY ∧ (2 : Nat) < 1 + REFRESH_EXPIRY ∧
    (generateTokens "u1" "e" 0).2 ≠ (generateTokens "u1" "e" 1).2 ∧
    (refreshHandler
        (logoutRevoke (loginIssue (loginIssue [] "u1" "e" 0).2 "u1" "e" 1).2
          (generateTokens "u1" "e" 0).2)
        (.tok (generateTokens "u1" "e" 1).2) 2).status = 200 := by
  have h := C10_independent_mints "u1" "e" 0 1 2 (by decide) (by decide) (by decide)
  exact ⟨by decide, by decide, by decide, h.1, h.2.1⟩

end AuthCore
